import Mathlib

/-!
Verification of the SnapLogic cache worker (a Cloudflare Worker that
proxies and caches an upstream API).  The definitions below are a shallow
embedding of the worker's fetch handler; platform primitives that the
handler calls (SHA-256, the WHATWG URL setters, the Headers map, the
shared cache) are modelled as executable Lean functions.
-/

namespace SnapCache

/-! ## SHA-256 (model of crypto.subtle.digest applied by the worker) -/

/-- Right rotation of a 32-bit word. -/
def rotr32 (n x : Nat) : Nat := ((x >>> n) ||| (x <<< (32 - n))) % 2 ^ 32

def smallSigma0 (x : Nat) : Nat := (rotr32 7 x) ^^^ (rotr32 18 x) ^^^ (x >>> 3)

def smallSigma1 (x : Nat) : Nat := (rotr32 17 x) ^^^ (rotr32 19 x) ^^^ (x >>> 10)

def bigSigma0 (x : Nat) : Nat := (rotr32 2 x) ^^^ (rotr32 13 x) ^^^ (rotr32 22 x)

def bigSigma1 (x : Nat) : Nat := (rotr32 6 x) ^^^ (rotr32 11 x) ^^^ (rotr32 25 x)

def ch (x y z : Nat) : Nat := (x &&& y) ^^^ ((0xffffffff ^^^ x) &&& z)

def maj (x y z : Nat) : Nat := (x &&& y) ^^^ (x &&& z) ^^^ (y &&& z)

/-- The 64 SHA-256 round constants. -/
def sha256K : List Nat :=
  [1116352408, 1899447441, 3049323471, 3921009573, 961987163,
   1508970993, 2453635748, 2870763221, 3624381080, 310598401,
   607225278, 1426881987, 1925078388, 2162078206, 2614888103,
   3248222580, 3835390401, 4022224774, 264347078, 604807628,
   770255983, 1249150122, 1555081692, 1996064986, 2554220882,
   2821834349, 2952996808, 3210313671, 3336571891, 3584528711,
   113926993, 338241895, 666307205, 773529912, 1294757372,
   1396182291, 1695183700, 1986661051, 2177026350, 2456956037,
   2730485921, 2820302411, 3259730800, 3345764771, 3516065817,
   3600352804, 4094571909, 275423344, 430227734, 506948616,
   659060556, 883997877, 958139571, 1322822218, 1537002063,
   1747873779, 1955562222, 2024104815, 2227730452, 2361852424,
   2428436474, 2756734187, 3204031479, 3329325298]

/-- The SHA-256 working state: eight 32-bit words. -/
structure Hash8 where
  a : Nat
  b : Nat
  c : Nat
  d : Nat
  e : Nat
  f : Nat
  g : Nat
  h : Nat

/-- The initial SHA-256 hash value. -/
def sha256H0 : Hash8 :=
  ⟨1779033703, 3144134277, 1013904242, 2773480762,
   1359893119, 2600822924, 528734635, 1541459225⟩

/-- Group a byte list into big-endian 32-bit words. -/
def bytesToWordsBE : List Nat → List Nat
  | b0 :: b1 :: b2 :: b3 :: rest =>
      (((b0 * 256 + b1) * 256 + b2) * 256 + b3) :: bytesToWordsBE rest
  | _ => []

/-- SHA-256 padding: append 0x80, zeros, and the 64-bit big-endian bit length,
reaching a multiple of 64 bytes. -/
def padMessage (msg : List Nat) : List Nat :=
  let len := msg.length
  let bitLen := len * 8
  msg ++ [0x80] ++ List.replicate ((119 - len % 64) % 64) 0 ++
    [(bitLen >>> 56) % 256, (bitLen >>> 48) % 256, (bitLen >>> 40) % 256,
     (bitLen >>> 32) % 256, (bitLen >>> 24) % 256, (bitLen >>> 16) % 256,
     (bitLen >>> 8) % 256, bitLen % 256]

/-- Extend the 16 words of a block to the 64-entry message schedule. -/
def msgSchedule (w16 : List Nat) : List Nat :=
  ((List.range 48).foldl
    (fun (w : Array Nat) i =>
      w.push ((smallSigma1 (w.getD (i + 14) 0) + w.getD (i + 9) 0 +
               smallSigma0 (w.getD (i + 1) 0) + w.getD i 0) % 2 ^ 32))
    w16.toArray).toList

/-- One SHA-256 round: kw is the (round constant, schedule word) pair. -/
def compressStep (st : Hash8) (kw : Nat × Nat) : Hash8 :=
  let t1 := (st.h + bigSigma1 st.e + ch st.e st.f st.g + kw.1 + kw.2) % 2 ^ 32
  let t2 := (bigSigma0 st.a + maj st.a st.b st.c) % 2 ^ 32
  ⟨(t1 + t2) % 2 ^ 32, st.a, st.b, st.c, (st.d + t1) % 2 ^ 32, st.e, st.f, st.g⟩

/-- Compress one 512-bit block (given as its 16 words) into the running hash. -/
def compressBlock (st0 : Hash8) (w16 : List Nat) : Hash8 :=
  let s := (sha256K.zip (msgSchedule w16)).foldl compressStep st0
  ⟨(st0.a + s.a) % 2 ^ 32, (st0.b + s.b) % 2 ^ 32, (st0.c + s.c) % 2 ^ 32,
   (st0.d + s.d) % 2 ^ 32, (st0.e + s.e) % 2 ^ 32, (st0.f + s.f) % 2 ^ 32,
   (st0.g + s.g) % 2 ^ 32, (st0.h + s.h) % 2 ^ 32⟩

/-- Split a padded byte list into blocks of 16 words; the first argument is
fuel making the recursion structural (the callers pass the list length,
always enough since each step consumes 64 bytes). -/
def toBlocks : Nat → List Nat → List (List Nat)
  | 0, _ => []
  | _ + 1, [] => []
  | fuel + 1, l => bytesToWordsBE (l.take 64) :: toBlocks fuel (l.drop 64)

/-- Serialize a 32-bit word to four big-endian bytes. -/
def wordBytesBE (w : Nat) : List Nat :=
  [(w >>> 24) % 256, (w >>> 16) % 256, (w >>> 8) % 256, w % 256]

/-- SHA-256 of a byte sequence, as the 32-byte digest. -/
def sha256 (msg : List Nat) : List Nat :=
  let padded := padMessage msg
  let hf := (toBlocks padded.length padded).foldl compressBlock sha256H0
  wordBytesBE hf.a ++ wordBytesBE hf.b ++ wordBytesBE hf.c ++ wordBytesBE hf.d ++
  wordBytesBE hf.e ++ wordBytesBE hf.f ++ wordBytesBE hf.g ++ wordBytesBE hf.h

/-- Lowercase hex digit for a value below 16. -/
def hexDigit (n : Nat) : Char :=
  if n < 10 then Char.ofNat (48 + n) else Char.ofNat (87 + n)

/-- Lowercase hex encoding of a byte list (model of Buffer.toString applied
with the hex encoding by the worker). -/
def hexEncode (bs : List Nat) : String :=
  String.mk (bs.flatMap (fun b => [hexDigit (b / 16), hexDigit (b % 16)]))

/-- UTF-8 encoding of one character (model of TextEncoder). -/
def utf8EncodeCharNat (c : Char) : List Nat :=
  let n := c.toNat
  if n < 0x80 then [n]
  else if n < 0x800 then [0xc0 ||| (n >>> 6), 0x80 ||| (n &&& 0x3f)]
  else if n < 0x10000 then
    [0xe0 ||| (n >>> 12), 0x80 ||| ((n >>> 6) &&& 0x3f), 0x80 ||| (n &&& 0x3f)]
  else
    [0xf0 ||| (n >>> 18), 0x80 ||| ((n >>> 12) &&& 0x3f),
     0x80 ||| ((n >>> 6) &&& 0x3f), 0x80 ||| (n &&& 0x3f)]

/-- UTF-8 encoding of a string as a byte list (model of TextEncoder.encode). -/
def utf8Bytes (s : String) : List Nat := s.data.flatMap utf8EncodeCharNat

/-! ## String helpers (models of the JavaScript string operations the
handler uses; their reachable alphabet is ASCII, on which the JavaScript
case mappings agree with these) -/

/-- ASCII lowercasing of one character. -/
def charToLower (c : Char) : Char :=
  if 65 ≤ c.toNat && c.toNat ≤ 90 then Char.ofNat (c.toNat + 32) else c

/-- ASCII uppercasing of one character. -/
def charToUpper (c : Char) : Char :=
  if 97 ≤ c.toNat && c.toNat ≤ 122 then Char.ofNat (c.toNat - 32) else c

/-- Model of toLowerCase. -/
def strLower (s : String) : String := String.mk (s.data.map charToLower)

/-- Model of toUpperCase. -/
def strUpper (s : String) : String := String.mk (s.data.map charToUpper)

/-- Whether the first list is a prefix of the second. -/
def listPrefix : List Char → List Char → Bool
  | [], _ => true
  | _ :: _, [] => false
  | p :: ps, c :: cs => p == c && listPrefix ps cs

/-- Model of startsWith (a start-anchored regex alternative). -/
def strStartsWith (s p : String) : Bool := listPrefix p.data s.data

/-- Model of endsWith (an end-anchored regex alternative). -/
def strEndsWith (s p : String) : Bool := listPrefix p.data.reverse s.data.reverse

/-- Whether pat occurs as a contiguous sublist of hay. -/
def listContainsSub (hay pat : List Char) : Bool :=
  match hay with
  | [] => listPrefix pat []
  | _ :: t => listPrefix pat hay || listContainsSub t pat

/-- Split a character list on a separator character. -/
def charSplit (sep : Char) : List Char → List (List Char)
  | [] => [[]]
  | c :: t =>
      let r := charSplit sep t
      if c == sep then [] :: r
      else
        match r with
        | [] => [[c]]
        | h :: t2 => (c :: h) :: t2

/-- Split a query pair at its first equals sign (a bare key gets the empty
value, as URLSearchParams gives it). -/
def splitKV : List Char → List Char × List Char
  | [] => ([], [])
  | c :: t =>
      if c == '=' then ([], t)
      else
        let kv := splitKV t
        (c :: kv.1, kv.2)

/-! ## JSON values (results of the platform Response.json parse) -/

/-- A JSON value, as produced by the platform JSON parser.  Objects are
duplicate-free field lists (JSON.parse keeps one value per key). -/
inductive Json where
  | null
  | bool (b : Bool)
  | num (n : Int)
  | str (s : String)
  | arr (elems : List Json)
  | obj (fields : List (String × Json))

/-- JavaScript property access j.k: a field of an object, undefined (none)
otherwise. -/
def jsGet (j : Json) (k : String) : Option Json :=
  match j with
  | Json.obj fs => (fs.find? (fun p => p.1 == k)).map (fun p => p.2)
  | _ => none

/-- JavaScript index access j[i] as used by the handler (array element or
numeric-string object field; indexing other values yields nothing the
handler's subsequent member accesses could observe). -/
def jsIndex (j : Json) (i : Nat) : Option Json :=
  match j with
  | Json.arr xs => xs.get? i
  | Json.obj fs => (fs.find? (fun p => p.1 == toString i)).map (fun p => p.2)
  | _ => none

/-- JavaScript truthiness of a JSON value. -/
def jsTruthy : Json → Bool
  | Json.null => false
  | Json.bool b => b
  | Json.num n => n != 0
  | Json.str s => s != ""
  | Json.arr _ => true
  | Json.obj _ => true

/-- Truthiness of a possibly-undefined value (undefined is falsy). -/
def jsTruthyOpt (o : Option Json) : Bool :=
  match o with
  | some v => jsTruthy v
  | none => false

/-- The string content of a JSON value (the handler only ever forwards
string-valued messages; other shapes would be stringified by the platform). -/
def jsAsString : Json → String
  | Json.str s => s
  | _ => ""

/-- The numeric content of a JSON value used as an HTTP status (the
handler's claims only exercise numeric status codes; a non-number here
would make the platform Response constructor raise). -/
def jsToStatus : Json → Nat
  | Json.num n => n.toNat
  | _ => 0

/-- JavaScript a || dflt on a possibly-undefined value. -/
def jsOr (a : Option Json) (dflt : Json) : Json :=
  match a with
  | some v => if jsTruthy v then v else dflt
  | none => dflt

/-! ## Strings, headers, URLs (platform primitives used by the worker) -/

/-- Substring test (model of JavaScript String.includes and of an
unanchored regex alternative). -/
def strContains (s pat : String) : Bool := listContainsSub s.data pat.data

/-- JavaScript falsiness of a nullable string (null and the empty string
are falsy). -/
def jsFalsy (o : Option String) : Bool := o.getD "" == ""

/-- Header list; the platform Headers class is case-insensitive on names. -/
abbrev Headers := List (String × String)

/-- Headers.get (case-insensitive). -/
def hGet (h : Headers) (n : String) : Option String :=
  (h.find? (fun p => strLower p.1 == strLower n)).map (fun p => p.2)

/-- Headers.set: replace any entry of that name. -/
def hSet (h : Headers) (n v : String) : Headers :=
  h.filter (fun p => strLower p.1 != strLower n) ++ [(n, v)]

/-- Headers.delete. -/
def hDelete (h : Headers) (n : String) : Headers :=
  h.filter (fun p => strLower p.1 != strLower n)

/-- The components of a WHATWG URL used by the worker (scheme without the
colon, query without the question mark). -/
structure URL where
  scheme : String
  hostname : String
  port : String
  pathname : String
  search : String

/-- URL serialization (the worker only builds http/https URLs with a host
and no userinfo or fragment). -/
def URL.toStr (u : URL) : String :=
  u.scheme ++ "://" ++ u.hostname ++
    (if u.port == "" then "" else ":" ++ u.port) ++ u.pathname ++
    (if u.search == "" then "" else "?" ++ u.search)

/-- The protocol setter lowercases the assigned scheme. -/
def URL.setProtocol (u : URL) (s : String) : URL := { u with scheme := strLower s }

/-- The hostname setter lowercases the assigned host. -/
def URL.setHostname (u : URL) (h : String) : URL := { u with hostname := strLower h }

/-- The port setter clears the port when it is the scheme's default. -/
def URL.setPort (u : URL) (p : String) : URL :=
  if (u.scheme == "https" && p == "443") || (u.scheme == "http" && p == "80") then
    { u with port := "" }
  else { u with port := p }

/-- The pathname setter on a special-scheme URL: an empty assignment
serializes as the root path, and a path is rooted with a slash. -/
def URL.setPathname (u : URL) (p : String) : URL :=
  if p == "" then { u with pathname := "/" }
  else if strStartsWith p "/" then { u with pathname := p }
  else { u with pathname := "/" ++ p }

/-- The search setter (the setter would also strip one leading question
mark; the worker only ever assigns a hex digest, which has none). -/
def URL.setSearch (u : URL) (s : String) : URL := { u with search := s }

/-- URLSearchParams.get over the raw query: the value of the first pair
with the given name (percent-decoding is not exercised by the worker's
lookups modelled here). -/
def searchParamGet (search : String) (name : String) : Option String :=
  ((charSplit '&' search.data).filterMap (fun kv =>
    let p := splitKV kv
    if String.mk p.1 == name then some (String.mk p.2) else none)).head?

/-! ## Requests, responses, cache, configuration -/

/-- A response body as the handler can observe it: bytes that parse as a
JSON document, bytes readable as text but not JSON, or bytes whose text
decoding fails. -/
inductive Body where
  | json (j : Json)
  | text (s : String)
  | undecodable

/-- An HTTP response (client-visible, upstream, or cached). -/
structure Resp where
  status : Nat
  statusText : String
  headers : Headers
  body : Body

/-- A request body: its raw bytes, and the platform JSON parse of those
bytes (none when they are not valid JSON). -/
structure ReqBody where
  bytes : List Nat
  json : Option Json

/-- An inbound request. -/
structure Request where
  method : String
  url : URL
  headers : Headers
  body : Option ReqBody

/-- The request's URL string (the platform exposes request.url serialized). -/
def Request.urlString (r : Request) : String := URL.toStr r.url

/-- The platform cache: entries keyed by the cache-key string. -/
abbrev Cache := List (String × Resp)

/-- cache.match. -/
def cacheMatch (c : Cache) (k : String) : Option Resp :=
  (c.find? (fun p => p.1 == k)).map (fun p => p.2)

/-- cache.delete. -/
def cacheDelete (c : Cache) (k : String) : Cache :=
  c.filter (fun p => p.1 != k)

/-- cache.put (replaces any previous entry for the key). -/
def cachePut (c : Cache) (k : String) (r : Resp) : Cache :=
  (k, r) :: cacheDelete c k

/-- The worker environment after the coercion block has produced typed
values (an unparseable requestTimeout behaves like the zero value: both
default to 100 before the race). -/
structure Env where
  ttl : Int
  targetProtocol : String
  targetHostname : String
  targetPort : Int
  targetPathPrefix : Option String
  requireHTTPS : Bool
  allowBinaryData : Bool
  requestTimeout : Int

/-- The source regex on targetProtocol (case-insensitive http or https). -/
def protocolOk (s : String) : Bool := strLower s == "http" || strLower s == "https"

/-- The environment checks whose failure raises before request handling
(the surrounding try converts the raise into a 500 Proxy Error). -/
def envOk (e : Env) : Bool :=
  e.targetHostname != "" && decide (0 ≤ e.targetPort) &&
  decide (e.targetPort ≤ 65535) && protocolOk e.targetProtocol &&
  decide (0 < e.ttl) && decide (0 ≤ e.requestTimeout)

/-- The millisecond deadline armed against the upstream fetch
(source: (env.requestTimeout - 1) * 1000, after the default of 100 for a
zero or unparseable requestTimeout). -/
def raceTimeoutMs (env : Env) : Int :=
  ((if env.requestTimeout == 0 then 100 else env.requestTimeout) - 1) * 1000

/-! ## The worker's own functions -/

/-- errorResponse: the SnapLogic-like JSON error envelope (its body is the
stringified envelope, which the JSON parse model recovers as the document
itself). -/
def errorResponse (status : Nat) (message : String) : Resp :=
  { status := status
    statusText := ""
    headers := [("content-type", "application/json")]
    body := Body.json (Json.obj
      [("http_status_code", Json.num status),
       ("response_map", Json.obj
         [("error_list", Json.arr [Json.obj [("message", Json.str message)]])])]) }

/-- The raw bytes of the request body (request.arrayBuffer is empty for a
null body). -/
def bodyBytes (req : Request) : List Nat :=
  (req.body.map (fun b => b.bytes)).getD []

/-- getCacheKey: hash method, request URL and body, then address the cache
by the target URL with its path cleared and its query replaced by the
digest. -/
def getCacheKey (url : URL) (req : Request) : String :=
  let keyRequest := utf8Bytes (strUpper req.method ++ "|" ++ Request.urlString req ++ "|")
  let keyBuffer := keyRequest ++ bodyBytes req
  let hashHex := hexEncode (sha256 keyBuffer)
  URL.toStr (URL.setSearch (URL.setPathname url "") hashHex)

/-- The target URL: the inbound URL with protocol, hostname and port
replaced from the configuration and the optional path prefix prepended. -/
def buildTargetUrl (env : Env) (u : URL) : URL :=
  let u1 := URL.setProtocol u env.targetProtocol
  let u2 := URL.setHostname u1 env.targetHostname
  let u3 := URL.setPort u2 (toString env.targetPort)
  match env.targetPathPrefix with
  | some p => if p != "" then URL.setPathname u3 (p ++ u3.pathname) else u3
  | none => u3

/-- The source's method regex, which anchors only its first and last
alternatives (only POST is start-anchored and only DELETE is
end-anchored; the middle alternatives match anywhere). -/
def methodRegexTest (m : String) : Bool :=
  strStartsWith m "POST" || strContains m "PUT" || strContains m "PATCH" ||
  strContains m "HEAD" || strContains m "GET" || strEndsWith m "DELETE"

/-- The fully anchored method regex used for the body checks. -/
def isPostPutPatch (m : String) : Bool := m == "POST" || m == "PUT" || m == "PATCH"

/-- The content-type regex: application/json or
application/x-www-form-urlencoded, with parameters after a semicolon
ignored; yields the matched subtype group (header values cannot contain
the newlines on which a regex dot would differ). -/
def contentTypeGroup (ct : String) : Option String :=
  if ct == "application/json" || strStartsWith ct "application/json;" then
    some "json"
  else if ct == "application/x-www-form-urlencoded" ||
      strStartsWith ct "application/x-www-form-urlencoded;" then
    some "x-www-form-urlencoded"
  else none

/-- The validation phase of the handler, in source order: environment
checks, authentication presence, HTTPS, method allow-list, body/method
coherence, the content-type gate and JSON well-formedness.  Yields the
early error response, or none to proceed. -/
def validateRequest (env : Env) (req : Request) : Option Resp :=
  if !envOk env then some (errorResponse 500 "Proxy Error")
  else if jsFalsy (hGet req.headers "authorization") &&
      jsFalsy (searchParamGet req.url.search "bearer_token") then
    some (errorResponse 401 "Mismatched bearer token")
  else if env.requireHTTPS && req.url.scheme != "https" then
    some (errorResponse 426 "HTTPS is required")
  else if !methodRegexTest (strUpper req.method) then
    some (errorResponse 405 "Method not allowed")
  else
    match req.body with
    | some body =>
        if !isPostPutPatch (strUpper req.method) then
          some (errorResponse 406 "Body data not expected")
        else
          let contentType := (hGet req.headers "content-type").getD ""
          if contentType == "" then
            some (errorResponse 406 "Content-Type is required for request type")
          else if !env.allowBinaryData then
            match contentTypeGroup contentType with
            | none => some (errorResponse 406 "Content-Type not acceptable for request type")
            | some grp =>
                if grp == "json" && body.json.isNone then
                  some (errorResponse 400 "JSON body not valid")
                else none
          else none
    | none =>
        if isPostPutPatch (strUpper req.method) then
          some (errorResponse 406 "Body data expected")
        else none

/-- json.response_map. -/
def respMap (j : Json) : Option Json := jsGet j "response_map"

/-- json.response_map.error_list. -/
def errList (j : Json) : Option Json := (respMap j).bind (fun rm => jsGet rm "error_list")

/-- json.response_map.error_list[0]. -/
def errHead (j : Json) : Option Json := (errList j).bind (fun el => jsIndex el 0)

/-- Truthiness of response_map and of error_list, the guard shared by the
empty-message and un-nesting branches. -/
def chainOk (j : Json) : Bool := jsTruthyOpt (respMap j) && jsTruthyOpt (errList j)

/-- Strict equality of a possibly-undefined value with the empty string. -/
def isEmptyStr (o : Option Json) : Bool :=
  match o with
  | some (Json.str s) => s == ""
  | _ => false

/-- The empty-message guard: error_list[0]?.message === the empty string. -/
def emptyMsgCond (j : Json) : Bool :=
  chainOk j && isEmptyStr ((errHead j).bind (fun e => jsGet e "message"))

/-- The un-nesting guard: error_list[0]?.http_status_code is truthy. -/
def unnestCond (j : Json) : Bool :=
  chainOk j && jsTruthyOpt ((errHead j).bind (fun e => jsGet e "http_status_code"))

/-- nestedError.response_map.error_list[0]?.message. -/
def nestedMsg (nested : Json) : Option Json :=
  (errHead nested).bind (fun e => jsGet e "message")

/-- The inner un-nesting guard on the nested error document. -/
def nestedOk (nested : Json) : Bool :=
  chainOk nested && jsTruthyOpt (nestedMsg nested)

/-- The non-200 JSON normalization branches (threads, empty message,
un-nesting), in source order; none means fall through to the unmodified
response. -/
def jsonNormalize (status : Nat) (j : Json) : Option Resp :=
  if jsTruthyOpt (jsGet j "threads") then some (errorResponse 500 "Pipeline exited")
  else if emptyMsgCond j then
    some (errorResponse status "Server returned empty response error message")
  else if unnestCond j then
    match errHead j with
    | some nested =>
        if nestedOk nested then
          some (errorResponse
            (jsToStatus (jsOr (jsGet nested "http_status_code")
              (jsOr (jsGet j "http_status_code") (Json.num 500))))
            (jsAsString ((nestedMsg nested).getD (Json.str ""))))
        else none
    | none => none
  else none

/-- The instrumented outcome of one handled request: the client response,
the cache afterwards, and which cache interactions took place. -/
structure Out where
  response : Resp
  cache : Cache
  cacheKey : Option String
  lookedUp : Bool
  deletedKey : Option String
  fetched : Bool
  cacheWrite : Option (String × Resp)

/-- The non-200 arm of the forwarder: parse and normalize JSON error
bodies (content-type compared to application/json by strict string
equality), pass everything else through unmodified. -/
def normalizeResp (response : Resp) : Resp :=
  if (hGet response.headers "content-type").getD "" == "application/json" then
    match response.body with
    | Body.json j => (jsonNormalize response.status j).getD response
    | Body.text s => errorResponse response.status s
    | Body.undecodable => errorResponse 500 "Error decoding response from server"
  else response

/-- The 200 arm of the forwarder: the response rebuilt for caching, its
cache-control header set to the configured TTL and its expires header
removed. -/
def storedResp (env : Env) (response : Resp) : Resp :=
  { status := response.status, statusText := response.statusText,
    headers := hDelete (hSet response.headers "cache-control"
      ("max-age=" ++ toString env.ttl)) "expires",
    body := response.body }

/-- The forwarding phase: race the upstream response against the timeout,
cache a 200 with rewritten freshness headers, otherwise normalize JSON
error documents. -/
def fetchPhase (env : Env) (cache : Cache) (upstream : Resp) (timedOut : Bool)
    (cacheKey : String) (lookedUp : Bool) (deletedKey : Option String) : Out :=
  let response := if timedOut then errorResponse 504 "Gateway Timeout" else upstream
  if response.status == 200 then
    let stored := storedResp env response
    { response := stored, cache := cachePut cache cacheKey stored,
      cacheKey := some cacheKey, lookedUp := lookedUp, deletedKey := deletedKey,
      fetched := true, cacheWrite := some (cacheKey, stored) }
  else
    { response := normalizeResp response, cache := cache, cacheKey := some cacheKey,
      lookedUp := lookedUp, deletedKey := deletedKey, fetched := true,
      cacheWrite := none }

/-- The key the handler derives for the request: getCacheKey applied to the
rewritten target URL and the (cloned) inbound request. -/
def derivedKey (env : Env) (req : Request) : String :=
  getCacheKey (buildTargetUrl env req.url) req

/-- Whether the inbound cache-control header contains no-cache
(case-insensitive substring). -/
def noCacheReq (req : Request) : Bool :=
  strContains (strLower ((hGet req.headers "cache-control").getD "")) "no-cache"

/-- The cache phase: derive the key, then either invalidate it (no-cache)
or look it up, short-circuiting on a hit. -/
def cachePhase (env : Env) (req : Request) (cache : Cache) (upstream : Resp)
    (timedOut : Bool) : Out :=
  let cacheKey := derivedKey env req
  if noCacheReq req then
    fetchPhase env (cacheDelete cache cacheKey) upstream timedOut cacheKey false (some cacheKey)
  else
    match cacheMatch cache cacheKey with
    | some r =>
        { response := r, cache := cache, cacheKey := some cacheKey,
          lookedUp := true, deletedKey := none, fetched := false, cacheWrite := none }
    | none => fetchPhase env cache upstream timedOut cacheKey true none

/-- The whole fetch handler: validation, then the cache and forwarding
phases.  The upstream argument is the response the outbound fetch would
deliver and timedOut tells whether that fetch lost the race against the
raceTimeoutMs deadline. -/
def handle (env : Env) (req : Request) (cache : Cache) (upstream : Resp)
    (timedOut : Bool) : Out :=
  match validateRequest env req with
  | some resp =>
      { response := resp, cache := cache, cacheKey := none, lookedUp := false,
        deletedKey := none, fetched := false, cacheWrite := none }
  | none => cachePhase env req cache upstream timedOut

/-! ## Definitions written from the claims, for comparison with the code -/

/-- The cache key exactly as claim C1 words it: the hex-encoded SHA-256
digest of UPPERCASE(method), a pipe, the rewritten target URL, a pipe and
the body, used directly as the key handed to the cache. -/
def claimCacheKey (env : Env) (req : Request) : String :=
  hexEncode (sha256
    (utf8Bytes (strUpper req.method ++ "|" ++ URL.toStr (buildTargetUrl env req.url) ++ "|") ++
      bodyBytes req))

/-- The cache key as the amended claim words it: the rewritten target URL
serialized with its path cleared to the root and its query replaced by the
hex-encoded SHA-256 digest of UPPERCASE(method), a pipe, the original
request URL, a pipe and the body. -/
def amendedCacheKey (env : Env) (req : Request) : String :=
  let t := buildTargetUrl env req.url
  t.scheme ++ "://" ++ t.hostname ++ (if t.port == "" then "" else ":" ++ t.port) ++ "/" ++
    ("?" ++ hexEncode (sha256
      (utf8Bytes (strUpper req.method ++ "|" ++ Request.urlString req ++ "|") ++ bodyBytes req)))

/-- The envelope message of a response whose body is a JSON error
document (the first error message in its response_map). -/
def respMessage (r : Resp) : Option String :=
  match r.body with
  | Body.json j => ((errHead j).bind (fun e => jsGet e "message")).map jsAsString
  | _ => none

/-! ## Concrete fixtures used by witnesses and counterexamples -/

/-- A valid configuration. -/
def envStd : Env :=
  { ttl := 60, targetProtocol := "https", targetHostname := "backend.example",
    targetPort := 8443, targetPathPrefix := none, requireHTTPS := true,
    allowBinaryData := false, requestTimeout := 100 }

/-- The same configuration with binary bodies allowed. -/
def envBin : Env := { envStd with allowBinaryData := true }

/-- An inbound request URL. -/
def urlStd : URL :=
  { scheme := "https", hostname := "edge.example", port := "",
    pathname := "/api/run", search := "" }

/-- An authorized HTTPS GET request. -/
def reqGet : Request :=
  { method := "GET", url := urlStd,
    headers := [("authorization", "Bearer abc")], body := none }

/-- The same request carrying a no-cache directive. -/
def reqGetNoCache : Request :=
  { reqGet with headers := reqGet.headers ++ [("cache-control", "no-cache")] }

/-- An authorized request with the unlisted method BUDGET (which the
mis-anchored method regex nevertheless lets through). -/
def reqBudget : Request := { reqGet with method := "BUDGET" }

/-- An authorized HTTPS POST with a JSON body and no content-type header. -/
def reqPostNoCT : Request :=
  { method := "POST", url := urlStd,
    headers := [("authorization", "Bearer abc")],
    body := some { bytes := utf8Bytes "{}", json := some (Json.obj []) } }

/-- A plain 200 upstream response. -/
def upOk : Resp :=
  { status := 200, statusText := "OK",
    headers := [("content-type", "application/json"), ("expires", "soon")],
    body := Body.json (Json.obj [("ok", Json.bool true)]) }

/-- A 200 upstream response whose JSON body carries a threads field. -/
def upThreads200 : Resp :=
  { status := 200, statusText := "OK",
    headers := [("content-type", "application/json")],
    body := Body.json (Json.obj [("threads", Json.arr [])]) }

/-- A 500 upstream response whose JSON body carries a threads field. -/
def upThreads500 : Resp :=
  { upThreads200 with status := 500, statusText := "" }

/-- The first outer error of a double-wrapped error document: it carries a
nested status and a nested message list of its own. -/
def jNestedInner (outerMsg : String) : Json :=
  Json.obj
    [("message", Json.str outerMsg),
     ("http_status_code", Json.num 404),
     ("response_map", Json.obj
       [("error_list", Json.arr
         [Json.obj [("message", Json.str "real cause")]])])]

/-- A double-wrapped upstream error document whose outer first error
carries the given message. -/
def jNestedDoc (outerMsg : String) : Json :=
  Json.obj
    [("http_status_code", Json.num 400),
     ("response_map", Json.obj
       [("error_list", Json.arr [jNestedInner outerMsg])])]

/-- A non-200 JSON error document whose outer first error has the empty
message and also a nested status and nested message: the empty-message
branch preempts the un-nesting branch on it. -/
def upNestedEmptyMsg : Resp :=
  { status := 400, statusText := "",
    headers := [("content-type", "application/json")],
    body := Body.json (jNestedDoc "") }

/-- A non-200 double-wrapped error document with a nonempty outer message. -/
def upNested : Resp :=
  { status := 400, statusText := "",
    headers := [("content-type", "application/json")],
    body := Body.json (jNestedDoc "outer") }

/-- A 502 upstream response whose content-type carries a charset
parameter. -/
def upHtml502 : Resp :=
  { status := 502, statusText := "",
    headers := [("content-type", "application/json; charset=utf-8")],
    body := Body.text "bad gateway" }

/-- An authorized HTTPS POST with a binary body and a binary content-type. -/
def reqPostBin : Request :=
  { method := "POST", url := urlStd,
    headers := [("authorization", "Bearer abc"),
                ("content-type", "application/octet-stream")],
    body := some { bytes := [0, 1, 2], json := none } }

/-- upOk as the handler stores it: freshness headers rewritten. -/
def storedOk : Resp := storedResp envStd upOk

/-! ## Shared plumbing lemmas -/

theorem handle_eq_cachePhase {env : Env} {req : Request} (cache : Cache)
    (upstream : Resp) (timedOut : Bool) (hv : validateRequest env req = none) :
    handle env req cache upstream timedOut = cachePhase env req cache upstream timedOut := by
  simp [handle, hv]

theorem cachePhase_noCache {req : Request} (env : Env) (cache : Cache)
    (upstream : Resp) (timedOut : Bool) (h : noCacheReq req = true) :
    cachePhase env req cache upstream timedOut =
      fetchPhase env (cacheDelete cache (derivedKey env req)) upstream timedOut
        (derivedKey env req) false (some (derivedKey env req)) := by
  simp [cachePhase, h]

theorem cachePhase_miss {env : Env} {req : Request} {cache : Cache}
    (upstream : Resp) (timedOut : Bool) (h1 : noCacheReq req = false)
    (h2 : cacheMatch cache (derivedKey env req) = none) :
    cachePhase env req cache upstream timedOut =
      fetchPhase env cache upstream timedOut (derivedKey env req) true none := by
  simp [cachePhase, h1, h2]

theorem cachePhase_hit {env : Env} {req : Request} {cache : Cache} {r : Resp}
    (upstream : Resp) (timedOut : Bool) (h1 : noCacheReq req = false)
    (h2 : cacheMatch cache (derivedKey env req) = some r) :
    cachePhase env req cache upstream timedOut =
      { response := r, cache := cache, cacheKey := some (derivedKey env req),
        lookedUp := true, deletedKey := none, fetched := false, cacheWrite := none } := by
  simp [cachePhase, h1, h2]

theorem fetchPhase_200 {upstream : Resp} (env : Env) (cache : Cache)
    (k : String) (lu : Bool) (dk : Option String) (h : upstream.status = 200) :
    fetchPhase env cache upstream false k lu dk =
      { response := storedResp env upstream,
        cache := cachePut cache k (storedResp env upstream), cacheKey := some k,
        lookedUp := lu, deletedKey := dk, fetched := true,
        cacheWrite := some (k, storedResp env upstream) } := by
  simp [fetchPhase, h]

theorem fetchPhase_non200 {upstream : Resp} (env : Env) (cache : Cache)
    (k : String) (lu : Bool) (dk : Option String) (h : upstream.status ≠ 200) :
    fetchPhase env cache upstream false k lu dk =
      { response := normalizeResp upstream, cache := cache, cacheKey := some k,
        lookedUp := lu, deletedKey := dk, fetched := true, cacheWrite := none } := by
  simp [fetchPhase, h]

theorem normalizeResp_other {upstream : Resp}
    (hct : (hGet upstream.headers "content-type").getD "" ≠ "application/json") :
    normalizeResp upstream = upstream := by
  simp [normalizeResp, hct]

theorem normalizeResp_json {upstream : Resp} {j : Json}
    (hct : (hGet upstream.headers "content-type").getD "" = "application/json")
    (hb : upstream.body = Body.json j) :
    normalizeResp upstream = (jsonNormalize upstream.status j).getD upstream := by
  simp [normalizeResp, hct, hb]

theorem fetchPhase_timeout (env : Env) (cache : Cache) (upstream : Resp)
    (k : String) (lu : Bool) (dk : Option String) :
    fetchPhase env cache upstream true k lu dk =
      { response := errorResponse 504 "Gateway Timeout", cache := cache,
        cacheKey := some k, lookedUp := lu, deletedKey := dk, fetched := true,
        cacheWrite := none } := by
  rfl

/-- The SHA-256 model matches the standard test vector. -/
theorem sha256_testVector :
    hexEncode (sha256 (utf8Bytes "abc")) =
      "ba7816bf8f01cfea414140de5dae2223b00361a396177a9cb410ff61f20015ad" := by
  decide

theorem hGet_hSet_self (h : Headers) (n v m : String)
    (hm : strLower m = strLower n) : hGet (hSet h n v) m = some v := by
  unfold hGet hSet
  rw [List.find?_append]
  have h1 : (h.filter (fun p => strLower p.1 != strLower n)).find?
      (fun p => strLower p.1 == strLower m) = none := by
    rw [List.find?_filter]
    rw [List.find?_eq_none]
    intro x _
    simp only [bne_iff_ne, beq_iff_eq, hm, decide_eq_true_eq, not_and]
    intro hne heq
    exact hne heq
  rw [h1]
  simp [hm]

theorem hGet_hDelete_self (h : Headers) (n m : String)
    (hm : strLower m = strLower n) : hGet (hDelete h n) m = none := by
  unfold hGet hDelete
  rw [List.find?_filter]
  have h1 : (h.find? fun a =>
      decide ((strLower a.1 != strLower n) = true ∧ (strLower a.1 == strLower m) = true)) = none := by
    rw [List.find?_eq_none]
    intro x _
    simp only [bne_iff_ne, beq_iff_eq, hm, decide_eq_true_eq, not_and]
    intro hne heq
    exact hne heq
  rw [h1]
  rfl

theorem hGet_hDelete_ne (h : Headers) (n m : String)
    (hm : strLower m ≠ strLower n) : hGet (hDelete h n) m = hGet h m := by
  unfold hGet hDelete
  rw [List.find?_filter]
  have h1 : (fun (a : String × String) =>
      decide ((strLower a.1 != strLower n) = true ∧ (strLower a.1 == strLower m) = true)) =
      (fun a => strLower a.1 == strLower m) := by
    funext a
    by_cases ha : strLower a.1 = strLower m
    · simp [ha, hm]
    · simp [ha]
  rw [h1]

theorem cacheMatch_put_self (c : Cache) (k : String) (r : Resp) :
    cacheMatch (cachePut c k r) k = some r := by
  simp [cacheMatch, cachePut]

theorem sha256_ne_nil (msg : List Nat) : sha256 msg ≠ [] := by
  simp [sha256, wordBytesBE]

theorem hexSha_ne_empty (msg : List Nat) : hexEncode (sha256 msg) ≠ "" := by
  intro hh
  have hd := congrArg String.data hh
  revert hd
  simp [sha256, wordBytesBE, hexEncode]

theorem fetchPhase_proj (env : Env) (c : Cache) (u : Resp) (t : Bool)
    (k : String) (lu : Bool) (dk : Option String) :
    (fetchPhase env c u t k lu dk).lookedUp = lu ∧
    (fetchPhase env c u t k lu dk).deletedKey = dk ∧
    (fetchPhase env c u t k lu dk).fetched = true ∧
    (fetchPhase env c u t k lu dk).cacheKey = some k := by
  cases t
  · by_cases hs : u.status = 200
    · rw [fetchPhase_200 env c k lu dk hs]
      exact ⟨rfl, rfl, rfl, rfl⟩
    · rw [fetchPhase_non200 env c k lu dk hs]
      exact ⟨rfl, rfl, rfl, rfl⟩
  · rw [fetchPhase_timeout]
    exact ⟨rfl, rfl, rfl, rfl⟩

theorem cachePhase_cacheKey (env : Env) (req : Request) (cache : Cache)
    (upstream : Resp) (timedOut : Bool) :
    (cachePhase env req cache upstream timedOut).cacheKey = some (derivedKey env req) := by
  cases hnc : noCacheReq req
  · cases hm : cacheMatch cache (derivedKey env req)
    · rw [cachePhase_miss upstream timedOut hnc hm]
      exact (fetchPhase_proj _ _ _ _ _ _ _).2.2.2
    · rw [cachePhase_hit upstream timedOut hnc hm]
  · rw [cachePhase_noCache _ _ _ _ hnc]
    exact (fetchPhase_proj _ _ _ _ _ _ _).2.2.2

theorem fetchPhase_cacheWrite_iff (env : Env) (c : Cache) (u : Resp)
    (k : String) (lu : Bool) (dk : Option String) :
    (fetchPhase env c u false k lu dk).cacheWrite.isSome ↔ u.status = 200 := by
  by_cases hs : u.status = 200
  · rw [fetchPhase_200 env c k lu dk hs]
    simp [hs]
  · rw [fetchPhase_non200 env c k lu dk hs]
    simp [hs]

theorem methodRegex_of_ppp {m : String} (h : isPostPutPatch m = true) :
    methodRegexTest m = true := by
  unfold isPostPutPatch at h
  simp only [Bool.or_eq_true, beq_iff_eq] at h
  rcases h with (h | h) | h <;> subst h <;> decide

theorem derivedKey_eq_amended (env : Env) (req : Request) :
    derivedKey env req = amendedCacheKey env req := by
  have hne := hexSha_ne_empty (utf8Bytes (strUpper req.method ++ "|" ++
    Request.urlString req ++ "|") ++ bodyBytes req)
  simp [Request.urlString, URL.toStr] at hne
  simp [derivedKey, getCacheKey, amendedCacheKey, URL.setPathname, URL.setSearch,
    URL.toStr, Request.urlString, hne]

theorem handle_non200 (env : Env) (req : Request) (cache : Cache) (upstream : Resp)
    (hv : validateRequest env req = none)
    (hmiss : noCacheReq req = true ∨ cacheMatch cache (derivedKey env req) = none)
    (hs : upstream.status ≠ 200) :
    (handle env req cache upstream false).response = normalizeResp upstream ∧
    (handle env req cache upstream false).cacheWrite = none := by
  rw [handle_eq_cachePhase cache upstream false hv]
  rcases hmiss with hnc | hm
  · rw [cachePhase_noCache _ _ _ _ hnc, fetchPhase_non200 _ _ _ _ _ hs]
    exact ⟨rfl, rfl⟩
  · cases hnc : noCacheReq req
    · rw [cachePhase_miss upstream false hnc hm, fetchPhase_non200 _ _ _ _ _ hs]
      exact ⟨rfl, rfl⟩
    · rw [cachePhase_noCache _ _ _ _ hnc, fetchPhase_non200 _ _ _ _ _ hs]
      exact ⟨rfl, rfl⟩

theorem storedResp_cacheControl (env : Env) (resp : Resp) :
    hGet (storedResp env resp).headers "cache-control" =
      some ("max-age=" ++ toString env.ttl) := by
  unfold storedResp
  dsimp only
  rw [hGet_hDelete_ne _ _ _ (by decide), hGet_hSet_self _ _ _ _ rfl]

theorem storedResp_expires (env : Env) (resp : Resp) :
    hGet (storedResp env resp).headers "expires" = none :=
  hGet_hDelete_self _ _ _ rfl

theorem fetchPhase_write_inv (env : Env) (c : Cache) (u : Resp) (t : Bool)
    (k0 : String) (lu : Bool) (dk : Option String) (k : String) (r : Resp)
    (hw : (fetchPhase env c u t k0 lu dk).cacheWrite = some (k, r)) :
    k = k0 ∧ (∃ resp, r = storedResp env resp) ∧
    (fetchPhase env c u t k0 lu dk).cache = cachePut c k0 r := by
  cases t
  · by_cases hs : u.status = 200
    · rw [fetchPhase_200 env c k0 lu dk hs] at hw ⊢
      simp only [Option.some.injEq, Prod.mk.injEq] at hw
      refine ⟨hw.1.symm, ⟨u, hw.2.symm⟩, ?_⟩
      simp [hw.2]
    · rw [fetchPhase_non200 env c k0 lu dk hs] at hw
      simp at hw
  · rw [fetchPhase_timeout] at hw
    simp at hw

/-! ## Claims -/

set_option maxRecDepth 8000 in
/-- C1 counterexample: at a concrete validated request, the key the handler
hands to the cache differs from the hex-encoded SHA-256 digest of
UPPERCASE(method), pipe, rewritten target URL, pipe, body that the claim
describes (the code hashes the original request URL and hands the cache a
URL string whose query carries the digest). -/
theorem c1_counterexample :
    (handle envStd reqGet [] upOk false).cacheKey ≠ some (claimCacheKey envStd reqGet) := by
  decide

/-- C1 (amended): for every request that passes validation, the cache key
handed to the cache is the rewritten target URL serialized with its path
cleared and its query replaced by the hex-encoded SHA-256 digest of
UPPERCASE(method), a pipe, the original request URL, a pipe and the body. -/
theorem c1_cacheKey_amended (env : Env) (req : Request) (cache : Cache)
    (upstream : Resp) (timedOut : Bool) (hv : validateRequest env req = none) :
    (handle env req cache upstream timedOut).cacheKey = some (amendedCacheKey env req) := by
  rw [handle_eq_cachePhase cache upstream timedOut hv, cachePhase_cacheKey,
    derivedKey_eq_amended]

/-- C1 witness: the amended cache-key theorem at a concrete request. -/
theorem c1_witness :
    (handle envStd reqGet [] upOk false).cacheKey = some (amendedCacheKey envStd reqGet) :=
  c1_cacheKey_amended envStd reqGet [] upOk false (by rfl)

/-- C2: when a validated request reaches the upstream call (no-cache set or
cache miss) and the upstream response wins the race, that response is
written to the cache if and only if its status is exactly 200; in
particular 4xx and 5xx responses are never stored. -/
theorem c2_store_iff_200 (env : Env) (req : Request) (cache : Cache) (upstream : Resp)
    (hv : validateRequest env req = none)
    (hmiss : noCacheReq req = true ∨ cacheMatch cache (derivedKey env req) = none) :
    (handle env req cache upstream false).cacheWrite.isSome ↔ upstream.status = 200 := by
  rw [handle_eq_cachePhase cache upstream false hv]
  rcases hmiss with hnc | hm
  · rw [cachePhase_noCache _ _ _ _ hnc]
    exact fetchPhase_cacheWrite_iff _ _ _ _ _ _
  · cases hnc : noCacheReq req
    · rw [cachePhase_miss upstream false hnc hm]
      exact fetchPhase_cacheWrite_iff _ _ _ _ _ _
    · rw [cachePhase_noCache _ _ _ _ hnc]
      exact fetchPhase_cacheWrite_iff _ _ _ _ _ _

/-- C2 witness: the store-iff-200 theorem at a concrete 200 response. -/
theorem c2_witness :
    (handle envStd reqGet [] upOk false).cacheWrite.isSome ↔ upOk.status = 200 :=
  c2_store_iff_200 envStd reqGet [] upOk (by rfl) (Or.inr rfl)

/-- C3: a validated request whose cache-control header contains no-cache
(case-insensitively) gets its derived key deleted, no cache lookup, and a
forced upstream fetch; every other validated request gets a lookup, and a
hit is returned verbatim with no upstream call. -/
theorem c3_noCache_and_hit (env : Env) (req : Request) (cache : Cache)
    (upstream : Resp) (timedOut : Bool) (hv : validateRequest env req = none) :
    (noCacheReq req = true →
      (handle env req cache upstream timedOut).deletedKey = some (derivedKey env req) ∧
      (handle env req cache upstream timedOut).lookedUp = false ∧
      (handle env req cache upstream timedOut).fetched = true) ∧
    (noCacheReq req = false →
      (handle env req cache upstream timedOut).lookedUp = true ∧
      ∀ r, cacheMatch cache (derivedKey env req) = some r →
        (handle env req cache upstream timedOut).response = r ∧
        (handle env req cache upstream timedOut).fetched = false) := by
  rw [handle_eq_cachePhase cache upstream timedOut hv]
  constructor
  · intro hnc
    rw [cachePhase_noCache _ _ _ _ hnc]
    have hp := fetchPhase_proj env (cacheDelete cache (derivedKey env req)) upstream
      timedOut (derivedKey env req) false (some (derivedKey env req))
    exact ⟨hp.2.1, hp.1, hp.2.2.1⟩
  · intro hnc
    cases hm : cacheMatch cache (derivedKey env req) with
    | none =>
        rw [cachePhase_miss upstream timedOut hnc hm]
        refine ⟨(fetchPhase_proj _ _ _ _ _ _ _).1, ?_⟩
        intro r hr
        simp at hr
    | some r0 =>
        rw [cachePhase_hit upstream timedOut hnc hm]
        refine ⟨rfl, ?_⟩
        intro r hr
        cases hr
        exact ⟨rfl, rfl⟩

/-- C3 witness: the no-cache and hit theorem at a concrete no-cache request. -/
theorem c3_witness :
    (noCacheReq reqGetNoCache = true →
      (handle envStd reqGetNoCache [] upOk false).deletedKey =
        some (derivedKey envStd reqGetNoCache) ∧
      (handle envStd reqGetNoCache [] upOk false).lookedUp = false ∧
      (handle envStd reqGetNoCache [] upOk false).fetched = true) ∧
    (noCacheReq reqGetNoCache = false →
      (handle envStd reqGetNoCache [] upOk false).lookedUp = true ∧
      ∀ r, cacheMatch [] (derivedKey envStd reqGetNoCache) = some r →
        (handle envStd reqGetNoCache [] upOk false).response = r ∧
        (handle envStd reqGetNoCache [] upOk false).fetched = false) :=
  c3_noCache_and_hit envStd reqGetNoCache [] upOk false (by rfl)

/-- C4: the code contradicts its own allow-list comment: the unlisted
method BUDGET is not rejected with 405 Method not allowed but forwarded
upstream, because the alternation in the method regex anchors only its
first and last alternatives, so GET matches inside BUDGET. -/
theorem c4_bug_budget_not_rejected :
    (handle envStd reqBudget [] upOk false).fetched = true ∧
    (handle envStd reqBudget [] upOk false).response.status = 200 :=
  ⟨rfl, rfl⟩

/-- C5 counterexample: with allowBinaryData true, a body-carrying request
with no content-type header is still rejected 406 (the missing-header
check runs before the allowBinaryData gate). -/
theorem c5_counterexample :
    (handle envBin reqPostNoCT [] upOk false).response =
      errorResponse 406 "Content-Type is required for request type" := rfl

/-- C5 (amended): when a body is present (and the earlier validation steps
pass), a missing content-type header yields 406 Content-Type is required
regardless of allowBinaryData; a present header that matches neither
accepted type yields 406 Content-Type not acceptable only when
allowBinaryData is false; with allowBinaryData true any present
content-type passes validation. -/
theorem c5_contentType_gate (env : Env) (req : Request) (body : ReqBody)
    (h1 : envOk env = true)
    (h2 : (jsFalsy (hGet req.headers "authorization") &&
      jsFalsy (searchParamGet req.url.search "bearer_token")) = false)
    (h3 : (env.requireHTTPS && req.url.scheme != "https") = false)
    (h4 : req.body = some body)
    (h5 : isPostPutPatch (strUpper req.method) = true) :
    ((hGet req.headers "content-type").getD "" = "" →
      validateRequest env req =
        some (errorResponse 406 "Content-Type is required for request type")) ∧
    (((hGet req.headers "content-type").getD "" ≠ "" ∧ env.allowBinaryData = false ∧
      contentTypeGroup ((hGet req.headers "content-type").getD "") = none) →
      validateRequest env req =
        some (errorResponse 406 "Content-Type not acceptable for request type")) ∧
    (((hGet req.headers "content-type").getD "" ≠ "" ∧ env.allowBinaryData = true) →
      validateRequest env req = none) := by
  have hmr := methodRegex_of_ppp h5
  refine ⟨?_, ?_, ?_⟩
  · intro hct
    simp [validateRequest, h1, h2, h3, h4, h5, hmr, hct]
  · rintro ⟨hct, hbin, hg⟩
    simp [validateRequest, h1, h2, h3, h4, h5, hmr, hct, hbin, hg]
  · rintro ⟨hct, hbin⟩
    simp [validateRequest, h1, h2, h3, h4, h5, hmr, hct, hbin]

/-- C5 witness: the content-type gate theorem at a concrete binary POST
with allowBinaryData true. -/
theorem c5_witness :
    ((hGet reqPostBin.headers "content-type").getD "" = "" →
      validateRequest envBin reqPostBin =
        some (errorResponse 406 "Content-Type is required for request type")) ∧
    (((hGet reqPostBin.headers "content-type").getD "" ≠ "" ∧
      envBin.allowBinaryData = false ∧
      contentTypeGroup ((hGet reqPostBin.headers "content-type").getD "") = none) →
      validateRequest envBin reqPostBin =
        some (errorResponse 406 "Content-Type not acceptable for request type")) ∧
    (((hGet reqPostBin.headers "content-type").getD "" ≠ "" ∧
      envBin.allowBinaryData = true) →
      validateRequest envBin reqPostBin = none) :=
  c5_contentType_gate envBin reqPostBin
    { bytes := [0, 1, 2], json := none } (by decide) (by decide) (by decide) rfl (by decide)

/-- C6: when the timeout wins the race for a validated request that
reaches the upstream call, the handler returns the synthetic 504 Gateway
Timeout envelope, no cache write occurs, and the armed deadline is
(requestTimeout − 1) seconds expressed in milliseconds. -/
theorem c6_timeout (env : Env) (req : Request) (cache : Cache) (upstream : Resp)
    (hv : validateRequest env req = none)
    (hmiss : noCacheReq req = true ∨ cacheMatch cache (derivedKey env req) = none)
    (hrt : env.requestTimeout ≠ 0) :
    (handle env req cache upstream true).response = errorResponse 504 "Gateway Timeout" ∧
    (handle env req cache upstream true).cacheWrite = none ∧
    raceTimeoutMs env = (env.requestTimeout - 1) * 1000 := by
  have hrace : raceTimeoutMs env = (env.requestTimeout - 1) * 1000 := by
    simp [raceTimeoutMs, hrt]
  rw [handle_eq_cachePhase cache upstream true hv]
  rcases hmiss with hnc | hm
  · rw [cachePhase_noCache _ _ _ _ hnc, fetchPhase_timeout]
    exact ⟨rfl, rfl, hrace⟩
  · cases hnc : noCacheReq req
    · rw [cachePhase_miss upstream true hnc hm, fetchPhase_timeout]
      exact ⟨rfl, rfl, hrace⟩
    · rw [cachePhase_noCache _ _ _ _ hnc, fetchPhase_timeout]
      exact ⟨rfl, rfl, hrace⟩

/-- C6 witness: the timeout theorem at a concrete request. -/
theorem c6_witness :
    (handle envStd reqGet [] upOk true).response = errorResponse 504 "Gateway Timeout" ∧
    (handle envStd reqGet [] upOk true).cacheWrite = none ∧
    raceTimeoutMs envStd = (envStd.requestTimeout - 1) * 1000 :=
  c6_timeout envStd reqGet [] upOk (by rfl) (Or.inr rfl) (by decide)

/-- C7 counterexample: a 200 upstream response whose JSON body carries a
threads field is not normalized to 500 Pipeline exited; it is returned
(and cached) with status 200 and its body unchanged. -/
theorem c7_counterexample :
    (handle envStd reqGet [] upThreads200 false).response.status = 200 ∧
    (handle envStd reqGet [] upThreads200 false).response.body = upThreads200.body :=
  ⟨rfl, rfl⟩

/-- C7 (amended): for every non-200 upstream response whose content-type
is exactly application/json and whose JSON body carries a truthy threads
field, the handler returns 500 Pipeline exited, overriding the upstream
status. -/
theorem c7_threads_amended (env : Env) (req : Request) (cache : Cache)
    (upstream : Resp) (j : Json) (hv : validateRequest env req = none)
    (hmiss : noCacheReq req = true ∨ cacheMatch cache (derivedKey env req) = none)
    (hs : upstream.status ≠ 200)
    (hct : (hGet upstream.headers "content-type").getD "" = "application/json")
    (hb : upstream.body = Body.json j)
    (hth : jsTruthyOpt (jsGet j "threads") = true) :
    (handle env req cache upstream false).response = errorResponse 500 "Pipeline exited" := by
  have hnorm : normalizeResp upstream = errorResponse 500 "Pipeline exited" := by
    rw [normalizeResp_json hct hb]
    simp [jsonNormalize, hth]
  exact (handle_non200 env req cache upstream hv hmiss hs).1.trans hnorm

/-- C7 witness: the amended threads theorem at a concrete 500 response
carrying a threads field. -/
theorem c7_witness :
    (handle envStd reqGet [] upThreads500 false).response =
      errorResponse 500 "Pipeline exited" :=
  c7_threads_amended envStd reqGet [] upThreads500 (Json.obj [("threads", Json.arr [])])
    (by rfl) (Or.inr rfl) (by decide) rfl rfl (by decide)

/-- C8 counterexample: a non-200 double-wrapped error document whose outer
first error message is the empty string is answered by the empty-message
branch (outer status, Server returned empty response error message), not
by the un-nesting branch the claim describes. -/
theorem c8_counterexample :
    (handle envStd reqGet [] upNestedEmptyMsg false).response.status = 400 ∧
    respMessage (handle envStd reqGet [] upNestedEmptyMsg false).response =
      some "Server returned empty response error message" ∧
    respMessage (handle envStd reqGet [] upNestedEmptyMsg false).response ≠
      some "real cause" :=
  ⟨rfl, rfl, by decide⟩

/-- C8 (amended): for every non-200 upstream JSON error document with no
truthy threads field, whose outer first error message is not the empty
string, whose outer first error carries a truthy nested http_status_code,
and whose nested response_map.error_list[0].message is a nonempty string,
the handler returns that nested message with the nested status, falling
back to the outer status and then to 500. -/
theorem c8_unnest_amended (env : Env) (req : Request) (cache : Cache)
    (upstream : Resp) (j nested : Json) (m : String)
    (hv : validateRequest env req = none)
    (hmiss : noCacheReq req = true ∨ cacheMatch cache (derivedKey env req) = none)
    (hs : upstream.status ≠ 200)
    (hct : (hGet upstream.headers "content-type").getD "" = "application/json")
    (hb : upstream.body = Body.json j)
    (hth : jsTruthyOpt (jsGet j "threads") = false)
    (hemp : emptyMsgCond j = false)
    (hun : unnestCond j = true)
    (hhead : errHead j = some nested)
    (hmsg : nestedMsg nested = some (Json.str m))
    (hchain : chainOk nested = true)
    (hm : m ≠ "") :
    (handle env req cache upstream false).response =
      errorResponse
        (jsToStatus (jsOr (jsGet nested "http_status_code")
          (jsOr (jsGet j "http_status_code") (Json.num 500)))) m := by
  have hok : nestedOk nested = true := by
    simp [nestedOk, hchain, hmsg, jsTruthyOpt, jsTruthy, bne_iff_ne, hm]
  have hnorm : normalizeResp upstream =
      errorResponse
        (jsToStatus (jsOr (jsGet nested "http_status_code")
          (jsOr (jsGet j "http_status_code") (Json.num 500)))) m := by
    rw [normalizeResp_json hct hb]
    simp [jsonNormalize, hth, hemp, hun, hhead, hok, hmsg, jsAsString]
  exact (handle_non200 env req cache upstream hv hmiss hs).1.trans hnorm

/-- C8 witness: the amended un-nesting theorem at a concrete double-wrapped
error document; the nested 404 and message are surfaced. -/
theorem c8_witness :
    (handle envStd reqGet [] upNested false).response =
      errorResponse 404 "real cause" :=
  c8_unnest_amended envStd reqGet [] upNested (jNestedDoc "outer")
    (jNestedInner "outer") "real cause" (by rfl) (Or.inr rfl) (by decide) rfl rfl
    (by decide) (by decide) (by decide) rfl rfl (by decide) (by decide)

/-- C9: every response the handler writes to the cache is stored with its
cache-control header set to exactly max-age=ttl and no expires header, and
a subsequent lookup of that key returns the stored entry. -/
theorem c9_store_headers (env : Env) (req : Request) (cache : Cache)
    (upstream : Resp) (timedOut : Bool) (k : String) (r : Resp)
    (hw : (handle env req cache upstream timedOut).cacheWrite = some (k, r)) :
    hGet r.headers "cache-control" = some ("max-age=" ++ toString env.ttl) ∧
    hGet r.headers "expires" = none ∧
    cacheMatch (handle env req cache upstream timedOut).cache k = some r := by
  cases hval : validateRequest env req with
  | some e => simp [handle, hval] at hw
  | none =>
      rw [handle_eq_cachePhase cache upstream timedOut hval] at hw ⊢
      cases hnc : noCacheReq req with
      | true =>
          rw [cachePhase_noCache _ _ _ _ hnc] at hw ⊢
          obtain ⟨hk, ⟨resp, hr⟩, hcache⟩ := fetchPhase_write_inv _ _ _ _ _ _ _ _ _ hw
          subst hk
          refine ⟨?_, ?_, ?_⟩
          · rw [hr]; exact storedResp_cacheControl env resp
          · rw [hr]; exact storedResp_expires env resp
          · rw [hcache]; exact cacheMatch_put_self _ _ _
      | false =>
          cases hm : cacheMatch cache (derivedKey env req) with
          | some r0 =>
              rw [cachePhase_hit upstream timedOut hnc hm] at hw
              simp at hw
          | none =>
              rw [cachePhase_miss upstream timedOut hnc hm] at hw ⊢
              obtain ⟨hk, ⟨resp, hr⟩, hcache⟩ := fetchPhase_write_inv _ _ _ _ _ _ _ _ _ hw
              subst hk
              refine ⟨?_, ?_, ?_⟩
              · rw [hr]; exact storedResp_cacheControl env resp
              · rw [hr]; exact storedResp_expires env resp
              · rw [hcache]; exact cacheMatch_put_self _ _ _

/-- C9 witness: the stored-headers theorem at a concrete 200 response. -/
theorem c9_witness :
    hGet storedOk.headers "cache-control" = some ("max-age=" ++ toString envStd.ttl) ∧
    hGet storedOk.headers "expires" = none ∧
    cacheMatch (handle envStd reqGet [] upOk false).cache (derivedKey envStd reqGet) =
      some storedOk :=
  c9_store_headers envStd reqGet [] upOk false (derivedKey envStd reqGet) storedOk (by rfl)

/-- C10: a non-200 upstream response whose content-type header is not
exactly the string application/json (for example one carrying a charset
parameter) is returned to the client unmodified, with no normalization and
no cache write. -/
theorem c10_strict_json_gate (env : Env) (req : Request) (cache : Cache)
    (upstream : Resp) (hv : validateRequest env req = none)
    (hmiss : noCacheReq req = true ∨ cacheMatch cache (derivedKey env req) = none)
    (hs : upstream.status ≠ 200)
    (hct : (hGet upstream.headers "content-type").getD "" ≠ "application/json") :
    (handle env req cache upstream false).response = upstream ∧
    (handle env req cache upstream false).cacheWrite = none := by
  have h := handle_non200 env req cache upstream hv hmiss hs
  exact ⟨h.1.trans (normalizeResp_other hct), h.2⟩

/-- C10 witness: the strict gate theorem at a 502 response whose
content-type carries a charset parameter. -/
theorem c10_witness :
    (handle envStd reqGet [] upHtml502 false).response = upHtml502 ∧
    (handle envStd reqGet [] upHtml502 false).cacheWrite = none :=
  c10_strict_json_gate envStd reqGet [] upHtml502 (by rfl) (Or.inr rfl)
    (by decide) (by decide)

end SnapCache
